import Mathlib

/-!
Shallow embedding of `app/services/base.py` (class `TransfermarktBase`) and
proofs about its extraction / request logic.

Conventions of the embedding:
* An XPath evaluation result is modelled as the list of matched strings
  (`matches : List String`); the parsed page is modelled as a function from
  XPath strings to match lists.
* Python dynamic values that may be either a list of strings or a single
  string (the `element` variable of `get_text_by_xpath` after `element[iloc]`)
  are modelled by the sum type `PyVal`.
* Python indexing and slicing (negative indices, clamping) are modelled
  exactly by `pyListIndex` / `pySlice`.
* Raised Python exceptions are modelled by `Except PyError`; the catching of
  `IndexError` at the tail of `get_text_by_xpath` is explicit in the match.
* The wall-clock pacing delay `time.sleep(random.uniform(1.5, 3.0))` of
  `make_request` is a real-time, probabilistic side effect and is outside
  this embedding; the rest of `make_request` (URL defaulting, header set,
  transport-error mapping, status-code taxonomy) is embedded.
-/

/-- Python sequence indexing `xs[i]`: negative indices count from the end;
out-of-range yields `none` (the caller decides whether that is an
`IndexError` or is swallowed). -/
def pyListIndex {α : Type} (xs : List α) (i : Int) : Option α :=
  if i < 0 then
    if (xs.length : Int) + i < 0 then none
    else xs[((xs.length : Int) + i).toNat]?
  else xs[i.toNat]?

/-- Normalisation of one slice bound, Python style: negative bounds count
from the end and are clamped at 0; positive bounds are clamped at the
length. -/
def pyNormBound (n : Nat) (i : Int) : Nat :=
  if i < 0 then ((n : Int) + i).toNat else min i.toNat n

/-- Python slicing `xs[i:j]` (step 1). -/
def pySlice {α : Type} (xs : List α) (i j : Int) : List α :=
  (xs.take (pyNormBound xs.length j)).drop (pyNormBound xs.length i)

/-- Python string indexing `s[i]`: yields a one-character string. -/
def pyStrIndex (s : String) (i : Int) : Option String :=
  (pyListIndex s.data i).map (fun c => String.mk [c])

/-- Digit-run parser used by `pyInt`. -/
def parseDigits (ds : List Char) : Option Nat :=
  if ds ≠ [] ∧ ds.all Char.isDigit then
    some (ds.foldl (fun n c => 10 * n + (c.toNat - 48)) 0)
  else
    none

/-- One step of word splitting, processed right to left: a whitespace
character closes the word under construction; any other character extends
it. -/
def splitWordsStep (c : Char) (ws : List (List Char)) : List (List Char) :=
  if c.isWhitespace then [] :: ws
  else
    match ws with
    | [] => [[c]]
    | w :: rest => (c :: w) :: rest

/-- The maximal whitespace-free words of a character list, in order. -/
def splitWords (l : List Char) : List (List Char) :=
  (l.foldr splitWordsStep []).filter (fun w => !w.isEmpty)

/-- Joins words with single spaces. -/
def joinWords : List (List Char) → List Char
  | [] => []
  | [w] => w
  | w :: ws => w ++ ' ' :: joinWords ws

/-- Modelled from the spec: the `trim` helper of `app/utils/utils.py`, which
is imported by `base.py` but not included under `src/`.  Spec glossary:
"Trim: normalization of a text value's surrounding and internal whitespace
into a canonical compact form"; §4.3: "leading/trailing whitespace and
normalization of internal whitespace per the project's trim rule". -/
def trim (s : String) : String :=
  String.mk (joinWords (splitWords s.data))

/-- The Python exceptions raised by `base.py`, as values. -/
inductive PyError
  /-- A list/str index out of range (uncaught). -/
  | indexError
  /-- A `ValueError`: `int()` applied to a non-numeric string; carries the offending text. -/
  | valueError (msg : String)
  /-- An `HTTPException(status_code, detail)` from fastapi. -/
  | httpException (status_code : Int) (detail : String)
deriving DecidableEq

/-- The fields of `requests.Response` that `make_request` inspects. -/
structure Response where
  status_code : Int
  reason : String
  content : String
deriving DecidableEq

/-- Outcome of the underlying `requests.get` transport call. -/
inductive TransportResult
  /-- The request completed and produced a response. -/
  | success (r : Response)
  /-- The exception `requests.TooManyRedirects` was raised. -/
  | tooManyRedirects
  /-- A `ConnectionError` was raised. -/
  | connectionError (msg : String)
  /-- Any other exception was raised; carries `str(e)`. -/
  | otherError (msg : String)

instance {ε α : Type} [DecidableEq ε] [DecidableEq α] : DecidableEq (Except ε α) := fun a b =>
  match a, b with
  | .ok x, .ok y =>
    if h : x = y then .isTrue (by rw [h]) else .isFalse (by intro hc; injection hc; contradiction)
  | .ok _, .error _ => .isFalse (by intro hc; exact Except.noConfusion hc)
  | .error _, .ok _ => .isFalse (by intro hc; exact Except.noConfusion hc)
  | .error e, .error f =>
    if h : e = f then .isTrue (by rw [h]) else .isFalse (by intro hc; injection hc; contradiction)

/-- Python `int(s)` on a string: optional surrounding whitespace, optional
sign, then a nonempty digit run; anything else raises `ValueError`
(carrying the original string).  Underscore separators and non-ASCII digits
accepted by CPython are not needed by any claim and are not modelled. -/
def pyIntCore (s : String) : Option Int :=
  let t := ((s.data.dropWhile Char.isWhitespace).reverse.dropWhile Char.isWhitespace).reverse
  match t with
  | '+' :: ds => (parseDigits ds).map (fun n => (n : Int))
  | '-' :: ds => (parseDigits ds).map (fun n => -(n : Int))
  | ds => (parseDigits ds).map (fun n => (n : Int))

/-- See `pyIntCore` for the accepted input format. -/
def pyInt (s : String) : Except PyError Int :=
  match pyIntCore s with
  | some v => Except.ok v
  | none => Except.error (PyError.valueError s)

/-- The dynamically-typed `element` variable of `get_text_by_xpath`: a list
of strings until `element[iloc]` turns it into a single string. -/
inductive PyVal
  | lst (xs : List String)
  | str (s : String)
deriving DecidableEq

/-- Python `element[i]` for either shape; the indexed value is a string
(either a list element or a one-character string). -/
def PyVal.index (v : PyVal) (i : Int) : Option String :=
  match v with
  | .lst xs => pyListIndex xs i
  | .str s => (pyListIndex s.data i).map (fun c => String.mk [c])

/-- Python `element[i:j]` for either shape. -/
def PyVal.slice (v : PyVal) (i j : Int) : PyVal :=
  match v with
  | .lst xs => .lst (pySlice xs i j)
  | .str s => .str (String.mk (pySlice s.data i j))

/-- Python `element[:j]` for either shape. -/
def PyVal.sliceTo (v : PyVal) (j : Int) : PyVal :=
  match v with
  | .lst xs => .lst (pySlice xs 0 j)
  | .str s => .str (String.mk (pySlice s.data 0 j))

/-- Python `element[i:]` for either shape. -/
def PyVal.sliceFrom (v : PyVal) (i : Int) : PyVal :=
  match v with
  | .lst xs => .lst (pySlice xs i xs.length)
  | .str s => .str (String.mk (pySlice s.data i s.data.length))

/-- Python iteration over `element` (used by `join_str.join(...)`): the
items of a list, or the characters of a string as one-character strings. -/
def PyVal.items : PyVal → List String
  | .lst xs => xs
  | .str s => s.data.map (fun c => String.mk [c])

/-- Line 126 of `base.py`: `[trim(e) for e in element if trim(e)]`.
The argument `ms` is the list of strings returned by the XPath evaluation. -/
def cleanMatches (ms : List String) : List String :=
  (ms.filter (fun e => trim e ≠ "")).map trim

/-- Python `elements_valid or []` on a list value: an empty list is falsy,
so this is the identity. -/
def pyListOrEmpty (l : List String) : List String :=
  if l.isEmpty then [] else l

/-- Embeds `TransfermarktBase.get_list_by_xpath` (lines 97-106), with the XPath
evaluation `self.page.xpath(xpath)` abstracted to its result `ms`.
`return elements_valid or []` is `pyListOrEmpty`. -/
def get_list_by_xpath (ms : List String) (remove_empty : Bool) : List String :=
  if remove_empty then pyListOrEmpty ((ms.filter (fun e => trim e ≠ "")).map trim)
  else pyListOrEmpty (ms.map trim)

/-- Lines 125-138 of `get_text_by_xpath`: the cleaning of the match list and
the four shaping steps (`iloc`, `iloc_from`+`iloc_to`, `iloc_to`,
`iloc_from`), each an independent `if`, producing the working value that the
join/pos logic then consumes.  `element[iloc]` on an out-of-range index
raises `IndexError` (it is outside the `try` block). -/
def shapeElement (ms : List String) (iloc iloc_from iloc_to : Option Int) :
    Except PyError PyVal :=
  let element : PyVal := .lst (cleanMatches ms)
  match (match iloc with
         | some k =>
           match element.index k with
           | some s => Except.ok (PyVal.str s)
           | none => Except.error PyError.indexError
         | none => Except.ok element : Except PyError PyVal) with
  | .error e => .error e
  | .ok e1 =>
    let e2 : PyVal :=
      match iloc_from, iloc_to with
      | some a, some b => e1.slice a b
      | _, _ => e1
    let e3 : PyVal :=
      match iloc_to with
      | some b => e2.sliceTo b
      | none => e2
    let e4 : PyVal :=
      match iloc_from with
      | some a => e3.sliceFrom a
      | none => e3
    .ok e4

/-- Embeds `TransfermarktBase.get_text_by_xpath` (lines 108-146), with the XPath
evaluation abstracted to its string-list result `ms` (the
`isinstance(element, list)` guard at line 125 always holds in that case).
The final `try: return trim(element[pos]) except IndexError: return None`
is the last match; an `IndexError` raised by `element[iloc]` at line 129 is
*not* caught and surfaces as `Except.error`. -/
def get_text_by_xpath (ms : List String) (pos : Int)
    (iloc iloc_from iloc_to : Option Int) (join_str : Option String) :
    Except PyError (Option String) :=
  if ms = [] then
    Except.ok none
  else
    match shapeElement ms iloc iloc_from iloc_to with
    | .error e => .error e
    | .ok element =>
      match join_str with
      | some sep => Except.ok (some (sep.intercalate (element.items.map trim)))
      | none =>
        match element.index pos with
        | some s => Except.ok (some (trim s))
        | none => Except.ok none

/-- Python truthiness of the `Optional[str]` results of `get_text_by_xpath`:
`None` and `""` are falsy. -/
def optTruthy : Option String → Bool
  | some s => s ≠ ""
  | none => false

/-- Modelled from the spec: `Pagination.PAGE_NUMBER_LAST` of
`app/utils/xpath.py`, which is imported by `base.py` but not included under
`src/`.  The spec describes it as the canonical "last page" link locator
suffix; its concrete text is irrelevant to the claims, only its identity. -/
def Pagination.PAGE_NUMBER_LAST : String := "//li/page-item-last-page//href"

/-- Modelled from the spec: `Pagination.PAGE_NUMBER_ACTIVE` of
`app/utils/xpath.py` (not under `src/`): the "currently active page"
locator suffix. -/
def Pagination.PAGE_NUMBER_ACTIVE : String := "//li/page-item-active//href"

/-- Python `s.split(c)` for a one-character separator `c` (the only form
used by `base.py`, with `"="` and `"/"`): split at every occurrence,
keeping empty parts.  The result is never the empty list. -/
def pySplitChar (c : Char) (l : List Char) : List (List Char) :=
  l.foldr
    (fun d acc =>
      match acc with
      | [] => [[d]]
      | w :: rest => if d = c then [] :: w :: rest else (d :: w) :: rest)
    [[]]

/-- Python `s.split(c)[-1]`: `str.split` never returns an empty list, so
the `[-1]` access cannot fail. -/
def pyLastSplit (c : Char) (s : String) : String :=
  String.mk ((pySplitChar c s.data).getLastD [])

/-- Line 155 of `base.py`:
`int(url_page.split("=")[-1].split("/")[-1])`. -/
def parse_page_value (s : String) : Except PyError Int :=
  pyInt (pyLastSplit '/' (pyLastSplit '=' s))

/-- Embeds `TransfermarktBase.get_last_page_number` (lines 148-156): the two-element
`for` loop is unrolled; `page` maps an XPath string to its match list.  Each
iteration calls `get_text_by_xpath` with default arguments; a raised
exception propagates. -/
def get_last_page_number (page : String → List String) (xpath_base : String) :
    Except PyError Int :=
  match get_text_by_xpath (page (xpath_base ++ Pagination.PAGE_NUMBER_LAST))
      0 none none none none with
  | .error e => .error e
  | .ok u1 =>
    if optTruthy u1 then
      parse_page_value (u1.getD "")
    else
      match get_text_by_xpath (page (xpath_base ++ Pagination.PAGE_NUMBER_ACTIVE))
          0 none none none none with
      | .error e => .error e
      | .ok u2 =>
        if optTruthy u2 then
          parse_page_value (u2.getD "")
        else
          .ok 1

/-- The fixed header set of `make_request` (lines 33-43). -/
def HEADERS : List (String × String) :=
  [("User-Agent",
    "Mozilla/5.0 (Macintosh; Intel Mac OS X 10_15_7) AppleWebKit/605.1.15 (KHTML, like Gecko) Version/15.5 Safari/605.1.15"),
   ("Accept-Language", "en-US,en;q=0.9"),
   ("Referer", "https://www.google.com/"),
   ("Accept", "text/html,application/xhtml+xml,application/xml;q=0.9,*/*;q=0.8"),
   ("Connection", "keep-alive")]

/-- Line 31 of `base.py`: `url = self.URL if not url else url`; both `None`
and `""` are falsy. -/
def resolve_url (self_URL : String) (url : Option String) : String :=
  match url with
  | none => self_URL
  | some v => if v = "" then self_URL else v

/-- Embeds `TransfermarktBase.make_request` (lines 26-67).  The transport call
`requests.get(url=url, headers=headers, timeout=15)` is abstracted to the
function `net` applied to the resolved URL, the fixed headers and the
timeout; the pacing delay at line 46 is a real-time side effect not
modelled here. -/
def make_request (net : String → List (String × String) → Nat → TransportResult)
    (self_URL : String) (url : Option String) : Except PyError Response :=
  match net (resolve_url self_URL url) HEADERS 15 with
  | .tooManyRedirects =>
    .error (.httpException 404 ("Not found for url: " ++ resolve_url self_URL url))
  | .connectionError _ =>
    .error (.httpException 500 ("Connection error for url: " ++ resolve_url self_URL url))
  | .otherError msg =>
    .error (.httpException 500
      ("Error for url: " ++ resolve_url self_URL url ++ ". " ++ msg))
  | .success r =>
    if 400 ≤ r.status_code ∧ r.status_code < 500 then
      .error (.httpException r.status_code
        ("Client Error. " ++ r.reason ++ " for url: " ++ resolve_url self_URL url))
    else if 500 ≤ r.status_code ∧ r.status_code < 600 then
      .error (.httpException r.status_code
        ("Server Error. " ++ r.reason ++ " for url: " ++ resolve_url self_URL url))
    else
      .ok r

/-- The instance state of `TransfermarktBase` (lines 16-24): the bound URL,
the parsed page (modelled by its XPath evaluation function) and the response
holder dict. -/
structure TransfermarktBase where
  URL : String
  page : String → List String
  response : List (String × String)

/-- Method `get_list_by_xpath` in state-passing form: the source never
assigns to `self`, so the returned state is the input state. -/
def TransfermarktBase.get_list_by_xpath_method (self : TransfermarktBase)
    (xpath : String) (remove_empty : Bool) : List String × TransfermarktBase :=
  (get_list_by_xpath (self.page xpath) remove_empty, self)

/-- Method `get_text_by_xpath` in state-passing form. -/
def TransfermarktBase.get_text_by_xpath_method (self : TransfermarktBase)
    (xpath : String) (pos : Int) (iloc iloc_from iloc_to : Option Int)
    (join_str : Option String) :
    Except PyError (Option String) × TransfermarktBase :=
  (get_text_by_xpath (self.page xpath) pos iloc iloc_from iloc_to join_str, self)

/-- Method `get_last_page_number` in state-passing form. -/
def TransfermarktBase.get_last_page_number_method (self : TransfermarktBase)
    (xpath_base : String) : Except PyError Int × TransfermarktBase :=
  (get_last_page_number self.page xpath_base, self)

/-- Method `raise_exception_if_not_found` (lines 90-95) in state-passing
form: raises `HTTPException(404, ...)` when `get_text_by_xpath(xpath)` is
falsy. -/
def TransfermarktBase.raise_exception_if_not_found_method (self : TransfermarktBase)
    (xpath : String) : Except PyError Unit × TransfermarktBase :=
  (match get_text_by_xpath (self.page xpath) 0 none none none none with
   | .error e => .error e
   | .ok r =>
     if optTruthy r then .ok ()
     else .error (.httpException 404 ("Invalid request (url: " ++ self.URL ++ ")")),
   self)

/-! ### Helper lemmas about `trim` -/

lemma splitWordsStep_ws (a : Char) (ws : List (List Char))
    (ha : a.isWhitespace = true) : splitWordsStep a ws = [] :: ws := by
  unfold splitWordsStep
  rw [if_pos ha]

lemma splitWordsStep_not_ws_nil (a : Char) (ha : a.isWhitespace = false) :
    splitWordsStep a [] = [[a]] := by
  unfold splitWordsStep
  rw [if_neg (by simp [ha])]

lemma splitWordsStep_not_ws_cons (a : Char) (w : List Char)
    (rest : List (List Char)) (ha : a.isWhitespace = false) :
    splitWordsStep a (w :: rest) = (a :: w) :: rest := by
  unfold splitWordsStep
  rw [if_neg (by simp [ha])]

lemma mem_foldr_splitWordsStep_no_ws (l : List Char) :
    ∀ w ∈ l.foldr splitWordsStep [], ∀ c ∈ w, c.isWhitespace = false := by
  induction l with
  | nil => intro w hw; simp at hw
  | cons a l ih =>
    intro w hw c hc
    rw [List.foldr_cons] at hw
    cases ha : a.isWhitespace with
    | true =>
      rw [splitWordsStep_ws a _ ha] at hw
      rcases List.mem_cons.mp hw with h | h
      · subst h; simp at hc
      · exact ih w h c hc
    | false =>
      rcases hf : l.foldr splitWordsStep [] with - | ⟨w0, rest⟩
      · rw [hf, splitWordsStep_not_ws_nil a ha] at hw
        simp only [List.mem_singleton] at hw
        subst hw
        simp only [List.mem_singleton] at hc
        subst hc
        exact ha
      · rw [hf, splitWordsStep_not_ws_cons a w0 rest ha] at hw
        rcases List.mem_cons.mp hw with h | h
        · subst h
          rcases List.mem_cons.mp hc with h2 | h2
          · subst h2; exact ha
          · exact ih w0 (by rw [hf]; exact List.mem_cons_self ..) c h2
        · exact ih w (by rw [hf]; exact List.mem_cons.mpr (Or.inr h)) c hc

lemma splitWords_mem_ne_nil (l : List Char) (w : List Char)
    (hw : w ∈ splitWords l) : w ≠ [] := by
  unfold splitWords at hw
  have := List.of_mem_filter hw
  simpa [List.isEmpty_iff] using this

lemma splitWords_mem_no_ws (l : List Char) (w : List Char)
    (hw : w ∈ splitWords l) : ∀ c ∈ w, c.isWhitespace = false :=
  mem_foldr_splitWordsStep_no_ws l w (List.mem_of_mem_filter hw)

lemma splitWords_head_shape (l : List Char) (w : List Char) (rest : List (List Char))
    (h : splitWords l = w :: rest) :
    ∃ c w2, w = c :: w2 ∧ c.isWhitespace = false := by
  have hmem : w ∈ splitWords l := h ▸ List.mem_cons_self ..
  have hne := splitWords_mem_ne_nil l w hmem
  rcases w with - | ⟨c, w2⟩
  · exact absurd rfl hne
  · exact ⟨c, w2, rfl, splitWords_mem_no_ws l _ hmem c (List.mem_cons_self ..)⟩

lemma splitWords_cons_ne_nil (c : Char) (t : List Char)
    (hc : c.isWhitespace = false) : splitWords (c :: t) ≠ [] := by
  unfold splitWords
  rw [List.foldr_cons]
  rcases hf : t.foldr splitWordsStep [] with - | ⟨w, rest⟩
  · rw [splitWordsStep_not_ws_nil c hc]
    simp [List.filter_cons]
  · rw [splitWordsStep_not_ws_cons c w rest hc]
    simp [List.filter_cons]

lemma joinWords_cons_head (c : Char) (w : List Char) (rest : List (List Char)) :
    ∃ t, joinWords ((c :: w) :: rest) = c :: t := by
  cases rest with
  | nil => exact ⟨w, rfl⟩
  | cons r rs => exact ⟨w ++ ' ' :: joinWords (r :: rs), rfl⟩

lemma trim_data (s : String) : (trim s).data = joinWords (splitWords s.data) := rfl

lemma string_mk_cons_ne_empty (c : Char) (t : List Char) : String.mk (c :: t) ≠ "" := by
  intro h
  have : (c :: t) = ([] : List Char) := congrArg String.data h
  exact List.noConfusion this

lemma trim_eq_empty_of_splitWords_nil (s : String) (h : splitWords s.data = []) :
    trim s = "" := by
  unfold trim
  rw [h]
  rfl

lemma trim_ne_empty_of_splitWords_ne_nil (s : String) (h : splitWords s.data ≠ []) :
    trim s ≠ "" := by
  rcases hs : splitWords s.data with - | ⟨w, rest⟩
  · exact absurd hs h
  · obtain ⟨c, w2, rfl, -⟩ := splitWords_head_shape s.data w rest hs
    obtain ⟨t, ht⟩ := joinWords_cons_head c w2 rest
    unfold trim
    rw [hs, ht]
    exact string_mk_cons_ne_empty c t

lemma trim_trim_ne_empty (s : String) (h : trim s ≠ "") : trim (trim s) ≠ "" := by
  have hsw : splitWords s.data ≠ [] := by
    intro hnil
    exact h (trim_eq_empty_of_splitWords_nil s hnil)
  rcases hs : splitWords s.data with - | ⟨w, rest⟩
  · exact absurd hs hsw
  · obtain ⟨c, w2, rfl, hc⟩ := splitWords_head_shape s.data w rest hs
    obtain ⟨t, ht⟩ := joinWords_cons_head c w2 rest
    apply trim_ne_empty_of_splitWords_ne_nil
    rw [trim_data, hs, ht]
    exact splitWords_cons_ne_nil c t hc

lemma cleanMatches_mem (ms : List String) (x : String) (hx : x ∈ cleanMatches ms) :
    ∃ e, x = trim e ∧ trim e ≠ "" := by
  unfold cleanMatches at hx
  obtain ⟨e, he, rfl⟩ := List.mem_map.mp hx
  have := List.of_mem_filter he
  exact ⟨e, rfl, by simpa using this⟩

/-! ### Helper lemmas about indexing, slicing and `get_text_by_xpath` -/

lemma pyListIndex_ofNat {α : Type} (xs : List α) (k : Nat) (h : k < xs.length) :
    pyListIndex xs (k : Int) = some (xs.get ⟨k, h⟩) := by
  unfold pyListIndex
  rw [if_neg (by omega), Int.toNat_ofNat]
  exact List.getElem?_eq_getElem h

lemma pyListIndex_mem {α : Type} (xs : List α) (i : Int) (x : α)
    (h : pyListIndex xs i = some x) : x ∈ xs := by
  unfold pyListIndex at h
  split at h
  · split at h
    · exact absurd h (by simp)
    · exact List.getElem?_mem h
  · exact List.getElem?_mem h

lemma cleanMatches_nil : cleanMatches [] = [] := rfl

lemma text_no_shaping (ms : List String) (pos : Int) (hm : ms ≠ []) :
    get_text_by_xpath ms pos none none none none =
      Except.ok ((pyListIndex (cleanMatches ms) pos).map trim) := by
  cases ms with
  | nil => exact absurd rfl hm
  | cons a l =>
    cases hp : pyListIndex (cleanMatches (a :: l)) pos with
    | none => simp [get_text_by_xpath, shapeElement, PyVal.index, hp]
    | some s => simp [get_text_by_xpath, shapeElement, PyVal.index, hp]

lemma text_iloc (ms : List String) (pos k : Int) (hm : ms ≠ []) :
    get_text_by_xpath ms pos (some k) none none none =
      match pyListIndex (cleanMatches ms) k with
      | some s => Except.ok ((pyStrIndex s pos).map trim)
      | none => Except.error PyError.indexError := by
  cases ms with
  | nil => exact absurd rfl hm
  | cons a l =>
    cases hk : pyListIndex (cleanMatches (a :: l)) k with
    | none => simp [get_text_by_xpath, shapeElement, PyVal.index, hk]
    | some s =>
      cases hp : pyListIndex s.data pos with
      | none => simp [get_text_by_xpath, shapeElement, PyVal.index, pyStrIndex, hk, hp]
      | some c => simp [get_text_by_xpath, shapeElement, PyVal.index, pyStrIndex, hk, hp]

lemma text_default_eq (ms : List String) :
    get_text_by_xpath ms 0 none none none none =
      Except.ok (if ms = [] then none
                 else (pyListIndex (cleanMatches ms) 0).map trim) := by
  by_cases hm : ms = []
  · subst hm; rfl
  · rw [text_no_shaping ms 0 hm, if_neg hm]

lemma text_default_some_ne_empty (ms : List String) (s : String)
    (h : get_text_by_xpath ms 0 none none none none = Except.ok (some s)) :
    s ≠ "" := by
  rw [text_default_eq] at h
  injection h with h
  by_cases hm : ms = []
  · rw [if_pos hm] at h
    exact absurd h (by simp)
  · rw [if_neg hm] at h
    cases hp : pyListIndex (cleanMatches ms) 0 with
    | none => rw [hp] at h; exact absurd h (by simp)
    | some x =>
      rw [hp] at h
      injection h with h
      obtain ⟨e, hx, hne⟩ := cleanMatches_mem ms x (pyListIndex_mem _ _ _ hp)
      subst h
      rw [hx]
      exact trim_trim_ne_empty e hne

/-! ### The spec-side description of `get_last_page_number` -/

/-- Follows the spec's words (§4.3 `last_page_number`): the text value a
locator yields, null when the path has no match.  It reads the result of
`get_text_by_xpath` with default arguments, which never raises. -/
def text_lookup (page : String → List String) (p : String) : Option String :=
  match get_text_by_xpath (page p) 0 none none none none with
  | .ok r => r
  | .error _ => none

/-- Follows the spec's words: the text of the first locator (last-page
link first, then active-page) that yields a non-null value. -/
def first_page_text (page : String → List String) (base : String) : Option String :=
  match text_lookup page (base ++ Pagination.PAGE_NUMBER_LAST) with
  | some s => some s
  | none => text_lookup page (base ++ Pagination.PAGE_NUMBER_ACTIVE)

lemma text_lookup_eq (page : String → List String) (p : String) :
    text_lookup page p =
      (if page p = [] then none
       else (pyListIndex (cleanMatches (page p)) 0).map trim) := by
  unfold text_lookup
  rw [text_default_eq]

lemma text_lookup_some_ne_empty (page : String → List String) (p : String)
    (s : String) (h : text_lookup page p = some s) : s ≠ "" := by
  unfold text_lookup at h
  cases hg : get_text_by_xpath (page p) 0 none none none none with
  | error e =>
    rw [text_default_eq] at hg
    exact absurd hg (by simp)
  | ok r =>
    rw [hg] at h
    subst h
    exact text_default_some_ne_empty (page p) s hg

lemma last_page_characterization_aux (page : String → List String)
    (base : String) :
    get_last_page_number page base =
      match first_page_text page base with
      | some s => parse_page_value s
      | none => Except.ok 1 := by
  unfold get_last_page_number first_page_text
  rw [text_default_eq (page (base ++ Pagination.PAGE_NUMBER_LAST)),
    text_default_eq (page (base ++ Pagination.PAGE_NUMBER_ACTIVE))]
  have e1 := text_lookup_eq page (base ++ Pagination.PAGE_NUMBER_LAST)
  have e2 := text_lookup_eq page (base ++ Pagination.PAGE_NUMBER_ACTIVE)
  rw [e1, e2]
  cases h1 : text_lookup page (base ++ Pagination.PAGE_NUMBER_LAST) with
  | some s1 =>
    rw [← e1, h1]
    have hs1 : s1 ≠ "" := text_lookup_some_ne_empty page _ s1 h1
    simp [optTruthy, hs1]
  | none =>
    rw [← e1, h1]
    cases h2 : text_lookup page (base ++ Pagination.PAGE_NUMBER_ACTIVE) with
    | some s2 =>
      rw [← e2, h2]
      have hs2 : s2 ≠ "" := text_lookup_some_ne_empty page _ s2 h2
      simp [optTruthy, hs2]
    | none =>
      rw [← e2, h2]
      simp [optTruthy]

lemma pyInt_error (s : String) (e : PyError) (h : pyInt s = Except.error e) :
    e = PyError.valueError s := by
  unfold pyInt at h
  cases h0 : pyIntCore s with
  | some v => rw [h0] at h; exact absurd h (by simp)
  | none =>
    rw [h0] at h
    injection h with h
    exact h.symm

lemma parse_page_value_error (s : String) (e : PyError)
    (h : parse_page_value s = Except.error e) : ∃ msg, e = PyError.valueError msg := by
  unfold parse_page_value at h
  exact ⟨_, pyInt_error _ e h⟩

/-! ### Helper lemmas about slicing -/

lemma pySlice_length_le {α : Type} (xs : List α) (a b : Int) :
    (pySlice xs a b).length ≤ pyNormBound xs.length b := by
  unfold pySlice
  rw [List.length_drop, List.length_take]
  omega

lemma pyNormBound_le_toNat (n : Nat) (b : Int) (hb : 0 ≤ b) :
    pyNormBound n b ≤ b.toNat := by
  unfold pyNormBound
  rw [if_neg (by omega)]
  exact Nat.min_le_left ..

lemma pySlice_zero_to {α : Type} (xs : List α) (b : Int) (hb : 0 ≤ b)
    (hlen : xs.length ≤ b.toNat) : pySlice xs 0 b = xs := by
  unfold pySlice pyNormBound
  rw [if_neg (by omega), if_neg (by omega)]
  have h1 : min b.toNat xs.length = xs.length := Nat.min_eq_right hlen
  have h2 : min (0 : Int).toNat xs.length = 0 := by simp
  rw [h1, h2, List.take_length, List.drop_zero]

lemma pySlice_from_length {α : Type} (xs : List α) (a : Int) (ha : 0 ≤ a) :
    pySlice xs a (xs.length : Int) = xs.drop a.toNat := by
  unfold pySlice pyNormBound
  rw [if_neg (by omega), if_neg (by omega)]
  have h1 : min ((xs.length : Int)).toNat xs.length = xs.length := by simp
  rw [h1, List.take_length]
  rcases Nat.le_total a.toNat xs.length with h | h
  · rw [Nat.min_eq_left h]
  · rw [Nat.min_eq_right h, List.drop_length, List.drop_eq_nil_of_le h]

/-! ### Helper lemmas about `get_list_by_xpath` -/

lemma filter_map_trim_comm (l : List String) :
    (l.map trim).filter (fun s => s ≠ "") =
      (l.filter (fun e => trim e ≠ "")).map trim := by
  induction l with
  | nil => rfl
  | cons a l ih =>
    rw [List.map_cons, List.filter_cons, List.filter_cons]
    by_cases ha : trim a ≠ ""
    · rw [if_pos (by simpa using ha), if_pos (by simpa using ha), List.map_cons, ih]
    · rw [if_neg (by simpa using ha), if_neg (by simpa using ha), ih]

lemma pyListOrEmpty_eq_self (l : List String) : pyListOrEmpty l = l := by
  unfold pyListOrEmpty
  cases l <;> simp

/-! ### Claim theorems -/

/-- C1, counterexample: with `from_index=1, to_index=3` on the matches
`["a","b","c","d"]`, the working sequence produced by the shaping steps of
`get_text_by_xpath` is `["c"]`, not the claimed sub-range `["b","c"]`: the
three slice `if`s at lines 131-138 are independent, so the list is sliced
`[1:3]`, then `[:3]`, then `[1:]`. -/
theorem shape_range_subrange_counterexample :
    shapeElement ["a", "b", "c", "d"] none (some 1) (some 3) =
      Except.ok (PyVal.lst ["c"]) ∧
    shapeElement ["a", "b", "c", "d"] none (some 1) (some 3) ≠
      Except.ok (PyVal.lst ["b", "c"]) :=
  ⟨by decide, by decide⟩

/-- C1, amended: for nonnegative `from_index` and `to_index` supplied
together (and no `at_index`), the working sequence before join/pos logic is
the sub-range `[from_index, to_index)` of the trimmed, empties-dropped
match list *with its first `from_index` elements dropped again*, because
the `[iloc_from:iloc_to]`, `[:iloc_to]` and `[iloc_from:]` slices are all
applied in sequence (the `[:iloc_to]` step is a no-op for a nonnegative
bound). -/
theorem shape_range_both_bounds (ms : List String) (a b : Int)
    (ha : 0 ≤ a) (hb : 0 ≤ b) :
    shapeElement ms none (some a) (some b) =
      Except.ok (PyVal.lst ((pySlice (cleanMatches ms) a b).drop a.toNat)) := by
  unfold shapeElement
  simp only [PyVal.slice, PyVal.sliceTo, PyVal.sliceFrom]
  rw [pySlice_zero_to (pySlice (cleanMatches ms) a b) b hb
    (le_trans (pySlice_length_le ..) (pyNormBound_le_toNat _ b hb))]
  rw [pySlice_from_length _ a ha]

/-- Witness for C1's amended theorem: `from_index=0, to_index=2` on
`["a","b","c","d"]` leaves `["a","b"]`. -/
theorem shape_range_both_bounds_witness :
    shapeElement ["a", "b", "c", "d"] none (some 0) (some 2) =
      Except.ok (PyVal.lst ["a", "b"]) :=
  (shape_range_both_bounds ["a", "b", "c", "d"] 0 2 (by decide) (by decide)).trans
    (by decide)

/-- C2, counterexample: `at_index=0` on the single match `["ab"]` (with no
other shaping options) returns `"a"` — the first *character* of the
selected element — not the whole trimmed element `"ab"`: after
`element = element[iloc]` the variable is a string, and the fall-through
`trim(element[pos])` with the default `pos=0` indexes into it. -/
theorem text_at_index_whole_element_counterexample :
    get_text_by_xpath ["ab"] 0 (some 0) none none none = Except.ok (some "a") ∧
    get_text_by_xpath ["ab"] 0 (some 0) none none none ≠ Except.ok (some "ab") :=
  ⟨by decide, by decide⟩

/-- C2, amended: for every in-range `at_index` `k` (into the trimmed,
empties-dropped match list) with no other shaping options, the returned
value is the trim of the *character* at position `pos` (default 0) of the
trimmed element at position `k` — its first character for `pos=0` — and
null when `pos` is out of range of that element; it equals the whole
element only when the element has length one. -/
theorem text_at_index_first_char (ms : List String) (pos : Int) (k : Nat)
    (h : k < (cleanMatches ms).length) :
    get_text_by_xpath ms pos (some (k : Int)) none none none =
      Except.ok ((pyStrIndex ((cleanMatches ms).get ⟨k, h⟩) pos).map trim) := by
  have hm : ms ≠ [] := by
    intro he
    rw [he, cleanMatches_nil] at h
    exact absurd h (by simp)
  rw [text_iloc ms pos (k : Int) hm, pyListIndex_ofNat _ k h]

/-- Witness for C2's amended theorem: `at_index=1` on `["x","yz"]` returns
`"y"`, the first character of the element at position 1. -/
theorem text_at_index_first_char_witness :
    get_text_by_xpath ["x", "yz"] 0 (some 1) none none none =
      Except.ok (some "y") :=
  (text_at_index_first_char ["x", "yz"] 0 1 (by decide)).trans (by decide)

/-- C3, counterexample: on the empty match list, `at_index=0` is out of
range but `get_text_by_xpath` returns null instead of raising an
`IndexError`, because `if not element: return None` at lines 122-123 fires
before any shaping. -/
theorem text_at_index_empty_matches_counterexample :
    get_text_by_xpath [] 0 (some 0) none none none = Except.ok none ∧
    get_text_by_xpath [] 0 (some 0) none none none ≠
      Except.error PyError.indexError :=
  ⟨by decide, by decide⟩

/-- C3, amended: for every *nonempty* match list, an out-of-range `pos`
with no shaping options yields null (the `IndexError` is swallowed by the
`try/except`), whereas an out-of-range `at_index` raises an uncaught
`IndexError`; on the empty match list both return null. -/
theorem text_out_of_range_asymmetry (ms : List String) (pos k : Int)
    (hm : ms ≠ []) :
    (pyListIndex (cleanMatches ms) pos = none →
      get_text_by_xpath ms pos none none none none = Except.ok none) ∧
    (pyListIndex (cleanMatches ms) k = none →
      get_text_by_xpath ms 0 (some k) none none none =
        Except.error PyError.indexError) := by
  constructor
  · intro hp
    rw [text_no_shaping ms pos hm, hp]
    rfl
  · intro hk
    rw [text_iloc ms 0 k hm, hk]

/-- Witness for C3's amended theorem: on `["a"]`, position 5 is out of
range; plain `pos` yields null while `at_index` raises. -/
theorem text_out_of_range_asymmetry_witness :
    get_text_by_xpath ["a"] 5 none none none none = Except.ok none ∧
    get_text_by_xpath ["a"] 0 (some 5) none none none =
      Except.error PyError.indexError :=
  ⟨(text_out_of_range_asymmetry ["a"] 5 5 (by decide)).1 (by decide),
   (text_out_of_range_asymmetry ["a"] 5 5 (by decide)).2 (by decide)⟩

/-- A page whose "last page" locator text is the non-numeric `"abc"`. -/
def pageMalformed : String → List String :=
  fun p => if p = Pagination.PAGE_NUMBER_LAST then ["abc"] else []

/-- C4, counterexample: on pagination text `"abc"` (no trailing integer),
`get_last_page_number` fails — but with a `ValueError` from `int()`, not
with an `IndexError`, so the failure does not belong to the IndexError
category of the error taxonomy. -/
theorem last_page_malformed_counterexample :
    get_last_page_number pageMalformed "" =
      Except.error (PyError.valueError "abc") ∧
    get_last_page_number pageMalformed "" ≠ Except.error PyError.indexError :=
  ⟨by decide, by decide⟩

/-- C4, amended: when the first locator yielding text produces a value
whose trailing token (after the final `=` and the final `/`) is not a
parseable integer, `get_last_page_number` fails, the failure is not
swallowed, and it is a `ValueError` (numeric-parse error), not an
`IndexError`. -/
theorem last_page_malformed_value_error (page : String → List String)
    (base s : String) (e : PyError)
    (h1 : first_page_text page base = some s)
    (h2 : parse_page_value s = Except.error e) :
    get_last_page_number page base = Except.error e ∧
    ∃ msg, e = PyError.valueError msg := by
  constructor
  · rw [last_page_characterization_aux page base, h1]
    exact h2
  · exact parse_page_value_error s e h2

/-- Witness for C4's amended theorem at the concrete malformed page. -/
theorem last_page_malformed_value_error_witness :
    get_last_page_number pageMalformed "" =
      Except.error (PyError.valueError "abc") :=
  (last_page_malformed_value_error pageMalformed "" "abc"
    (PyError.valueError "abc") (by decide) (by decide)).1

/-- C5: for a fetch whose transport completes with status code `c`:
`400 ≤ c < 500` raises a client error carrying `c`, `500 ≤ c < 600` raises
a server error carrying `c`, and any other `c` returns the response
normally. -/
theorem make_request_status_taxonomy (r : Response) (su : String) :
    (400 ≤ r.status_code ∧ r.status_code < 500 →
      make_request (fun _ _ _ => TransportResult.success r) su none =
        Except.error (PyError.httpException r.status_code
          ("Client Error. " ++ r.reason ++ " for url: " ++ su))) ∧
    (500 ≤ r.status_code ∧ r.status_code < 600 →
      make_request (fun _ _ _ => TransportResult.success r) su none =
        Except.error (PyError.httpException r.status_code
          ("Server Error. " ++ r.reason ++ " for url: " ++ su))) ∧
    (¬(400 ≤ r.status_code ∧ r.status_code < 600) →
      make_request (fun _ _ _ => TransportResult.success r) su none =
        Except.ok r) := by
  refine ⟨fun h => ?_, fun h => ?_, fun h => ?_⟩
  · simp only [make_request, resolve_url]
    rw [if_pos h]
  · simp only [make_request, resolve_url]
    rw [if_neg (by omega), if_pos h]
  · simp only [make_request, resolve_url]
    rw [if_neg (by omega), if_neg (by omega)]

/-- Witness for C5 at statuses 404, 503 and 200. -/
theorem make_request_status_taxonomy_witness :
    make_request (fun _ _ _ => TransportResult.success ⟨404, "NF", ""⟩) "u" none =
      Except.error (PyError.httpException 404
        ("Client Error. " ++ "NF" ++ " for url: " ++ "u")) ∧
    make_request (fun _ _ _ => TransportResult.success ⟨503, "SU", ""⟩) "u" none =
      Except.error (PyError.httpException 503
        ("Server Error. " ++ "SU" ++ " for url: " ++ "u")) ∧
    make_request (fun _ _ _ => TransportResult.success ⟨200, "OK", "c"⟩) "u" none =
      Except.ok ⟨200, "OK", "c"⟩ :=
  ⟨(make_request_status_taxonomy ⟨404, "NF", ""⟩ "u").1 (by decide),
   (make_request_status_taxonomy ⟨503, "SU", ""⟩ "u").2.1 (by decide),
   (make_request_status_taxonomy ⟨200, "OK", "c"⟩ "u").2.2 (by decide)⟩

/-- C6: `get_last_page_number` tries the "last page" locator first and the
"active page" locator second, each appended to the base path; for the
first one yielding non-null text it returns the integer parsed from the
text after the final `=` and then after the final `/`
(`parse_page_value`); if neither yields text it returns 1. -/
theorem last_page_number_characterization (page : String → List String)
    (xpath_base : String) :
    get_last_page_number page xpath_base =
      match first_page_text page xpath_base with
      | some s => parse_page_value s
      | none => Except.ok 1 :=
  last_page_characterization_aux page xpath_base

/-- C7: `get_list_by_xpath` is total (never raises): zero matches yield the
empty sequence; with `remove_empty` the result is the trimmed matches with
elements that trim to empty dropped; without it all trimmed matches are
kept, including empty strings. -/
theorem list_by_xpath_total_characterization (ms : List String)
    (remove_empty : Bool) :
    get_list_by_xpath [] remove_empty = [] ∧
    get_list_by_xpath ms true = (ms.map trim).filter (fun s => s ≠ "") ∧
    get_list_by_xpath ms false = ms.map trim := by
  refine ⟨?_, ?_, ?_⟩
  · cases remove_empty <;> rfl
  · unfold get_list_by_xpath
    rw [if_pos rfl, pyListOrEmpty_eq_self, filter_map_trim_comm]
  · unfold get_list_by_xpath
    rw [if_neg Bool.false_ne_true, pyListOrEmpty_eq_self]

/-- C8, counterexample: on the empty match list, `join_with="-"` returns
null (the early `if not element: return None` fires), not the join `""` of
an empty working sequence. -/
theorem text_join_empty_matches_counterexample :
    get_text_by_xpath [] 0 none none none (some "-") = Except.ok none ∧
    get_text_by_xpath [] 0 none none none (some "-") ≠ Except.ok (some "") :=
  ⟨by decide, by decide⟩

/-- C8, amended: for every *nonempty* match list and every separator
(including `""`), whenever the shaping steps produce a working value, the
result is that value's items, each re-trimmed, joined with the separator
— independently of `pos`, which is short-circuited. -/
theorem text_join_applied_last (ms : List String) (pos : Int)
    (iloc iloc_from iloc_to : Option Int) (sep : String) (v : PyVal)
    (hm : ms ≠ []) (hv : shapeElement ms iloc iloc_from iloc_to = Except.ok v) :
    get_text_by_xpath ms pos iloc iloc_from iloc_to (some sep) =
      Except.ok (some (sep.intercalate (v.items.map trim))) := by
  cases ms with
  | nil => exact absurd rfl hm
  | cons a l =>
    unfold get_text_by_xpath
    rw [if_neg (by simp), hv]

/-- Witness for C8's amended theorem: joining `["a","b","c"]` with `"-"`
returns `"a-b-c"` even for an out-of-range `pos`. -/
theorem text_join_applied_last_witness :
    get_text_by_xpath ["a", "b", "c"] 7 none none none (some "-") =
      Except.ok (some "a-b-c") :=
  (text_join_applied_last ["a", "b", "c"] 7 none none none "-"
    (PyVal.lst ["a", "b", "c"]) (by decide) (by decide)).trans (by decide)

/-- C10: every extraction operation leaves the instance state (URL, page,
response) unchanged, whether it returns a value or raises. -/
theorem extraction_preserves_instance_state (self : TransfermarktBase)
    (xpath xpath_base : String) (remove_empty : Bool) (pos : Int)
    (iloc iloc_from iloc_to : Option Int) (join_str : Option String) :
    (self.get_list_by_xpath_method xpath remove_empty).2 = self ∧
    (self.get_text_by_xpath_method xpath pos iloc iloc_from iloc_to join_str).2 =
      self ∧
    (self.get_last_page_number_method xpath_base).2 = self ∧
    (self.raise_exception_if_not_found_method xpath).2 = self :=
  ⟨rfl, rfl, rfl, rfl⟩
